import Mathlib

/-!
Shallow embedding of the Timeless-Touch image editor core
(`src/store/imageStore.ts`): the adjustment state, filter stack
computation, history ledger, preset registry and crop geometry.
Numbers are modelled as rationals; `Date.now()` is passed in as an
explicit `now : Nat` argument wherever the source reads the clock.
-/

namespace TimelessTouch

/-- The five signed adjustment knobs (`interface Adjustment`). -/
structure Adjustment where
  brightness : ℚ
  contrast : ℚ
  saturation : ℚ
  sharpness : ℚ
  noise : ℚ
  deriving DecidableEq, Repr

/-- The keys of `Adjustment` (`keyof Adjustment`). -/
inductive AdjKey
  | brightness
  | contrast
  | saturation
  | sharpness
  | noise
  deriving DecidableEq, Repr

/-- JS computed-property update `{ ...adjustments, [key]: value }`. -/
def setKey (a : Adjustment) : AdjKey → ℚ → Adjustment
  | AdjKey.brightness, v => { a with brightness := v }
  | AdjKey.contrast, v => { a with contrast := v }
  | AdjKey.saturation, v => { a with saturation := v }
  | AdjKey.sharpness, v => { a with sharpness := v }
  | AdjKey.noise, v => { a with noise := v }

/-- Read one knob of an `Adjustment` by key. -/
def getKey (a : Adjustment) : AdjKey → ℚ
  | AdjKey.brightness => a.brightness
  | AdjKey.contrast => a.contrast
  | AdjKey.saturation => a.saturation
  | AdjKey.sharpness => a.sharpness
  | AdjKey.noise => a.noise

/-- One snapshot in the undo ledger (`interface HistoryEntry`). -/
structure HistoryEntry where
  adjustments : Adjustment
  imageData : Option String
  timestamp : Nat
  deriving DecidableEq, Repr

/-- A named adjustment bundle (`interface Preset`). -/
structure Preset where
  name : String
  adjustments : Adjustment
  deriving DecidableEq, Repr

/-- Tagged variant for the fabric image filters the store constructs. -/
inductive FilterOp
  | Grayscale
  | Brightness (v : ℚ)
  | Contrast (v : ℚ)
  | Saturation (v : ℚ)
  | Sharpness (v : ℚ)
  | Noise (v : ℚ)
  deriving DecidableEq, Repr

/-- The geometric and filter state of a `fabric.Image`. -/
structure FabricImage where
  left : ℚ
  top : ℚ
  width : ℚ
  height : ℚ
  scaleX : ℚ
  scaleY : ℚ
  angle : ℚ
  filters : List FilterOp
  deriving DecidableEq, Repr

/-- A `fabric.Rect` crop overlay. -/
structure FabricRect where
  left : ℚ
  top : ℚ
  width : ℚ
  height : ℚ
  scaleX : ℚ
  scaleY : ℚ
  deriving DecidableEq, Repr

/-- An object living on the fabric canvas. -/
inductive CanvasObject
  | image (img : FabricImage)
  | rect (r : FabricRect)
  deriving DecidableEq, Repr

/-- The fabric canvas, reduced to its object list. -/
structure Canvas where
  objects : List CanvasObject
  deriving DecidableEq, Repr

/-- The zustand store state (`interface ImageState`). -/
structure ImageState where
  canvas : Option Canvas
  activeImage : Option FabricImage
  isDarkMode : Bool
  isGrayscale : Bool
  isSplitView : Bool
  adjustments : Adjustment
  history : List HistoryEntry
  presets : List Preset
  deriving DecidableEq, Repr

/-- `DEFAULT_ADJUSTMENTS`: every knob 0. -/
def DEFAULT_ADJUSTMENTS : Adjustment :=
  { brightness := 0, contrast := 0, saturation := 0, sharpness := 0, noise := 0 }

/-- `DEFAULT_PRESETS`: the three built-in presets. -/
def DEFAULT_PRESETS : List Preset :=
  [ { name := "Vintage",
      adjustments := { brightness := -10, contrast := 10, saturation := -20,
                       sharpness := 0, noise := 20 } },
    { name := "Dramatic",
      adjustments := { brightness := -5, contrast := 30, saturation := 10,
                       sharpness := 20, noise := 0 } },
    { name := "Classic B&W",
      adjustments := { brightness := 0, contrast := 20, saturation := -100,
                       sharpness := 10, noise := 0 } } ]

/-- JS `arr.slice(-n)`: the at most `n` last elements. -/
def jsSliceLast (n : Nat) (l : List α) : List α :=
  l.drop (l.length - n)

/-- `addHistoryEntry`: `history = [...state.history.slice(-19), entry]`. -/
def addHistoryEntry (st : ImageState) (e : HistoryEntry) : ImageState :=
  { st with history := jsSliceLast 19 st.history ++ [e] }

/-- The filter stack `updateAdjustment` pushes onto the active image:
grayscale first when the flag is set, then brightness, contrast,
saturation, sharpness, noise with the source's exact scaling. -/
def appliedFilters (adj : Adjustment) (gray : Bool) : List FilterOp :=
  (if gray then [FilterOp.Grayscale] else []) ++
    [FilterOp.Brightness (adj.brightness / 100),
     FilterOp.Contrast (adj.contrast / 100),
     FilterOp.Saturation (adj.saturation / 100),
     FilterOp.Sharpness adj.sharpness,
     FilterOp.Noise adj.noise]

/-- `updateAdjustment(key, value)`: guarded by `activeImage && canvas`;
stores the raw value, rebuilds the full filter stack on the active image,
then appends a history snapshot of the resulting adjustments. -/
def updateAdjustment (st : ImageState) (key : AdjKey) (value : ℚ) (now : Nat) :
    ImageState :=
  match st.canvas, st.activeImage with
  | some _, some img =>
      let adj := setKey st.adjustments key value
      let img2 := { img with filters := appliedFilters adj st.isGrayscale }
      let st2 := { st with adjustments := adj, activeImage := some img2 }
      addHistoryEntry st2 { adjustments := adj, imageData := none, timestamp := now }
  | _, _ => st

/-- `toggleGrayscale()`: guarded by `activeImage && canvas`; when the flag
is off it pushes a `Grayscale` filter onto the END of the existing filter
list, when on it filters all `Grayscale` instances out, then flips the
flag. -/
def toggleGrayscale (st : ImageState) : ImageState :=
  match st.canvas, st.activeImage with
  | some _, some img =>
      let filters2 :=
        if st.isGrayscale then
          img.filters.filter (fun f => f != FilterOp.Grayscale)
        else
          img.filters ++ [FilterOp.Grayscale]
      { st with activeImage := some { img with filters := filters2 },
                isGrayscale := !st.isGrayscale }
  | _, _ => st

/-- JS array indexing `l[i]`: `undefined` (`none`) for a negative or
out-of-range index. -/
def jsIndex (l : List α) (i : Int) : Option α :=
  if i < 0 then none else l.get? i.toNat

/-- `undo()`: guarded by `history.length > 0 && activeImage && canvas`;
reads `history[history.length - 2]` (defaults when absent), sets the
adjustments to it and drops the last ledger entry, then reapplies filters
by calling `updateAdjustment('brightness', ...)`. -/
def undo (st : ImageState) (now : Nat) : ImageState :=
  match st.canvas, st.activeImage with
  | some _, some _ =>
      if st.history.length > 0 then
        let prevAdj :=
          match jsIndex st.history ((st.history.length : Int) - 2) with
          | some e => e.adjustments
          | none => DEFAULT_ADJUSTMENTS
        let st2 := { st with adjustments := prevAdj, history := st.history.dropLast }
        updateAdjustment st2 AdjKey.brightness prevAdj.brightness now
      else st
  | _, _ => st

/-- `addPreset(preset)`: unconditionally appends to the registry. -/
def addPreset (st : ImageState) (p : Preset) : ImageState :=
  { st with presets := st.presets ++ [p] }

/-- One recorded `updateAdjustment` invocation. -/
structure Call where
  key : AdjKey
  value : ℚ
  now : Nat
  deriving DecidableEq, Repr

/-- Run a sequence of `updateAdjustment` calls left to right. -/
def runUpdates (st : ImageState) (cs : List Call) : ImageState :=
  cs.foldl (fun s c => updateAdjustment s c.key c.value c.now) st

/-- The five per-knob calls `applyPreset` replays, in the declaration
order of the `Adjustment` object literal (`Object.entries`). -/
def presetCalls (p : Preset) (now : Nat) : List Call :=
  [ { key := AdjKey.brightness, value := p.adjustments.brightness, now := now },
    { key := AdjKey.contrast, value := p.adjustments.contrast, now := now },
    { key := AdjKey.saturation, value := p.adjustments.saturation, now := now },
    { key := AdjKey.sharpness, value := p.adjustments.sharpness, now := now },
    { key := AdjKey.noise, value := p.adjustments.noise, now := now } ]

/-- `applyPreset(preset)`: replays each knob through `updateAdjustment`. -/
def applyPreset (st : ImageState) (p : Preset) (now : Nat) : ImageState :=
  runUpdates st (presetCalls p now)

/-- `deletePreset(presetName)`: keeps the presets whose name differs. -/
def deletePreset (st : ImageState) (presetName : String) : ImageState :=
  { st with presets := st.presets.filter (fun p => p.name != presetName) }

/-- `canvas.getObjects().find(obj => obj instanceof fabric.Rect)`. -/
def findRect : List CanvasObject → Option FabricRect
  | [] => none
  | CanvasObject.rect r :: _ => some r
  | CanvasObject.image _ :: rest => findRect rest

/-- A source-pixel rectangle of the image being cropped. -/
structure SourceRegion where
  left : ℚ
  top : ℚ
  width : ℚ
  height : ℚ
  deriving DecidableEq, Repr

/-- The source-pixel crop bounds `applyCrop` hands to `drawImage`:
`(cropRect.left - activeImage.left) / activeImage.scaleX` and so on. -/
def cropSource (img : FabricImage) (r : FabricRect) : SourceRegion :=
  { left := (r.left - img.left) / img.scaleX,
    top := (r.top - img.top) / img.scaleY,
    width := r.width / img.scaleX,
    height := r.height / img.scaleY }

/-- The fresh image `applyCrop` installs: sized like the temp canvas
(`cropRect.width * cropRect.scaleX` by `cropRect.height * cropRect.scaleY`),
placed at the rect's surface location, scale reset to 1. -/
def croppedImage (r : FabricRect) : FabricImage :=
  { left := r.left, top := r.top,
    width := r.width * r.scaleX, height := r.height * r.scaleY,
    scaleX := 1, scaleY := 1, angle := 0, filters := [] }

/-- The `drawImage` source-rect arguments of a crop commit, when one
would happen. -/
def applyCropDraw (st : ImageState) : Option SourceRegion :=
  match st.canvas, st.activeImage with
  | some cv, some img =>
      match findRect cv.objects with
      | none => none
      | some r => some (cropSource img r)
  | _, _ => none

/-- `applyCrop()`: no-op without canvas, active image or overlay rect;
otherwise replaces the old image and the rect by the cropped image and
makes it active. -/
def applyCrop (st : ImageState) : ImageState :=
  match st.canvas, st.activeImage with
  | some cv, some img =>
      match findRect cv.objects with
      | none => st
      | some r =>
          let newImg := croppedImage r
          let objs2 :=
            ((cv.objects.erase (CanvasObject.image img)).erase
              (CanvasObject.rect r)) ++ [CanvasObject.image newImg]
          { st with canvas := some { objects := objs2 }, activeImage := some newImg }
  | _, _ => st

/-- The store's initial state. -/
def initialState : ImageState :=
  { canvas := none, activeImage := none,
    isDarkMode := false, isGrayscale := false, isSplitView := false,
    adjustments := DEFAULT_ADJUSTMENTS, history := [], presets := DEFAULT_PRESETS }

/-- Holds when every `Grayscale` op precedes every other op of a stack. -/
def grayscaleLeads (fs : List FilterOp) : Bool :=
  (fs.dropWhile (fun f => f == FilterOp.Grayscale)).all
    (fun f => f != FilterOp.Grayscale)

/-- A demo image the sample states share. -/
def demoImage : FabricImage :=
  { left := 0, top := 0, width := 200, height := 200,
    scaleX := 1, scaleY := 1, angle := 0,
    filters := appliedFilters DEFAULT_ADJUSTMENTS false }

/-- A demo canvas holding the demo image. -/
def demoCanvas : Canvas :=
  { objects := [CanvasObject.image demoImage] }

/-- A state with an active image and canvas present. -/
def demoState : ImageState :=
  { canvas := some demoCanvas, activeImage := some demoImage,
    isDarkMode := false, isGrayscale := false, isSplitView := false,
    adjustments := DEFAULT_ADJUSTMENTS, history := [], presets := DEFAULT_PRESETS }

/-- A 200 by 200 unscaled image at the origin. -/
def cropDemoImage : FabricImage :=
  { left := 0, top := 0, width := 200, height := 200,
    scaleX := 1, scaleY := 1, angle := 0, filters := [] }

/-- An overlay rect covering the left half of `cropDemoImage`. -/
def cropDemoRect : FabricRect :=
  { left := 0, top := 0, width := 100, height := 200, scaleX := 1, scaleY := 1 }

/-- A state mid-crop: the demo image plus its left-half overlay rect. -/
def cropDemoState : ImageState :=
  { initialState with
    canvas := some { objects := [CanvasObject.image cropDemoImage,
                                 CanvasObject.rect cropDemoRect] },
    activeImage := some cropDemoImage }

/-- A demo state with the grayscale flag on. -/
def grayDemoState : ImageState :=
  { demoState with
    isGrayscale := true,
    activeImage := some { demoImage with
                          filters := appliedFilters DEFAULT_ADJUSTMENTS true } }

/-- A name is empty after trimming exactly when every character is
whitespace (`name.trim` in the source's caller check). -/
def blankName (s : String) : Bool := s.data.all Char.isWhitespace

/-- A preset whose name is empty (so empty after trimming). -/
def emptyNamePreset : Preset := { name := "", adjustments := DEFAULT_ADJUSTMENTS }

/-- One bounded ledger push, as `addHistoryEntry` performs on the list. -/
def pushBounded (h : List HistoryEntry) (e : HistoryEntry) : List HistoryEntry :=
  jsSliceLast 19 h ++ [e]

/-- The adjustments after a sequence of `updateAdjustment` calls. -/
def applyCalls (adj : Adjustment) (cs : List Call) : Adjustment :=
  cs.foldl (fun a c => setKey a c.key c.value) adj

/-- The snapshots a sequence of `updateAdjustment` calls appends, in
order: each call snapshots the adjustments resulting from it. -/
def snapEntries (adj : Adjustment) : List Call → List HistoryEntry
  | [] => []
  | c :: cs =>
      { adjustments := setKey adj c.key c.value, imageData := none,
        timestamp := c.now } :: snapEntries (setKey adj c.key c.value) cs

/-- Twenty-five distinct brightness calls. -/
def calls25 : List Call :=
  (List.range 25).map fun (i : Nat) =>
    { key := AdjKey.brightness, value := (i : ℚ), now := i }

/-- A user preset for the witnesses. -/
def demoPreset : Preset :=
  { name := "X",
    adjustments := { brightness := 10, contrast := 20, saturation := 30,
                     sharpness := 40, noise := 50 } }

/-- A state with non-default adjustments and an empty ledger. -/
def staleState : ImageState :=
  { demoState with
    adjustments := { brightness := 5, contrast := 0, saturation := 0,
                     sharpness := 0, noise := 0 } }

/-- A state whose ledger holds exactly one entry. -/
def oneEntryState : ImageState :=
  { demoState with
    history := [{ adjustments := { brightness := 9, contrast := 0, saturation := 0,
                                   sharpness := 0, noise := 0 },
                  imageData := none, timestamp := 1 }],
    adjustments := { brightness := 9, contrast := 0, saturation := 0,
                     sharpness := 0, noise := 0 } }

/-- Oldest sample ledger entry. -/
def entryA : HistoryEntry :=
  { adjustments := { brightness := 1, contrast := 0, saturation := 0,
                     sharpness := 0, noise := 0 },
    imageData := none, timestamp := 1 }

/-- Middle sample ledger entry. -/
def entryB : HistoryEntry :=
  { adjustments := { brightness := 2, contrast := 0, saturation := 0,
                     sharpness := 0, noise := 0 },
    imageData := none, timestamp := 2 }

/-- Newest sample ledger entry. -/
def entryC : HistoryEntry :=
  { adjustments := { brightness := 3, contrast := 0, saturation := 0,
                     sharpness := 0, noise := 0 },
    imageData := none, timestamp := 3 }

/-- A state with ledger `[A, B, C]` about to be undone. -/
def undoDemoState : ImageState :=
  { demoState with
    history := [entryA, entryB, entryC],
    adjustments := entryC.adjustments }

/-- Reading the knob just written returns the written value. -/
theorem getKey_setKey (a : Adjustment) (k : AdjKey) (v : ℚ) :
    getKey (setKey a k v) k = v := by
  cases k <;> rfl

/-- Writing a knob with its own current value is the identity. -/
theorem setKey_getKey_self (a : Adjustment) (k : AdjKey) :
    setKey a k (getKey a k) = a := by
  cases k <;> rfl

/-- Unfolding of `updateAdjustment` when canvas and active image exist. -/
theorem updateAdjustment_present (st : ImageState) (cv : Canvas) (img : FabricImage)
    (k : AdjKey) (v : ℚ) (now : Nat)
    (hcv : st.canvas = some cv) (himg : st.activeImage = some img) :
    updateAdjustment st k v now =
      { st with
        adjustments := setKey st.adjustments k v,
        activeImage :=
          some { img with
                 filters := appliedFilters (setKey st.adjustments k v) st.isGrayscale },
        history := jsSliceLast 19 st.history ++
          [{ adjustments := setKey st.adjustments k v, imageData := none,
             timestamp := now }] } := by
  simp [updateAdjustment, hcv, himg, addHistoryEntry]

/-- Claim C10: without an active image or canvas, `updateAdjustment`,
`toggleGrayscale` and `undo` leave the whole state unchanged. -/
theorem claim10_guard_noops (st : ImageState) (k : AdjKey) (v : ℚ) (now : Nat)
    (h : st.activeImage = none ∨ st.canvas = none) :
    updateAdjustment st k v now = st ∧ toggleGrayscale st = st ∧ undo st now = st := by
  rcases h with h | h
  · cases hc : st.canvas <;>
      simp [updateAdjustment, toggleGrayscale, undo, h, hc]
  · cases hi : st.activeImage <;>
      simp [updateAdjustment, toggleGrayscale, undo, h, hi]

/-- Witness for claim C10 at the initial state (no canvas, no image). -/
theorem claim10_witness :
    updateAdjustment initialState AdjKey.brightness 5 0 = initialState ∧
    toggleGrayscale initialState = initialState ∧
    undo initialState 0 = initialState :=
  claim10_guard_noops initialState AdjKey.brightness 5 0 (Or.inl rfl)

/-- Counterexample to claim C2: `updateAdjustment` stores 150 for
brightness (not 100) and -300 for contrast (not -100); the stored knob
leaves the range [-100, 100]. -/
theorem claim2_cex_no_clamping :
    (updateAdjustment demoState AdjKey.brightness 150 0).adjustments.brightness = 150 ∧
    (150 : ℚ) ≠ 100 ∧
    (updateAdjustment demoState AdjKey.contrast (-300) 0).adjustments.contrast = -300 ∧
    (-300 : ℚ) ≠ -100 ∧
    ¬ (updateAdjustment demoState AdjKey.brightness 150 0).adjustments.brightness ≤ 100 := by
  decide

/-- Claim C2 as amended: `updateAdjustment` performs no clamping at all;
with an active image present it stores exactly the value it is given,
in range or not. -/
theorem claim2_stores_raw_value (st : ImageState) (cv : Canvas) (img : FabricImage)
    (k : AdjKey) (v : ℚ) (now : Nat)
    (hcv : st.canvas = some cv) (himg : st.activeImage = some img) :
    (updateAdjustment st k v now).adjustments = setKey st.adjustments k v ∧
    getKey (updateAdjustment st k v now).adjustments k = v := by
  rw [updateAdjustment_present st cv img k v now hcv himg]
  exact ⟨rfl, getKey_setKey st.adjustments k v⟩

/-- Witness for the amended claim C2 at brightness 150. -/
theorem claim2_witness :
    (updateAdjustment demoState AdjKey.brightness 150 0).adjustments =
      setKey demoState.adjustments AdjKey.brightness 150 ∧
    getKey (updateAdjustment demoState AdjKey.brightness 150 0).adjustments
      AdjKey.brightness = 150 :=
  claim2_stores_raw_value demoState demoCanvas demoImage AdjKey.brightness 150 0 rfl rfl

/-- Claim C7: at a crop commit with an overlay rect, the source-pixel
bounds handed to the rasterizer are the rect inverse-mapped through the
image position and scale, and the new active image has the rect's surface
dimensions and location with scale reset to 1. -/
theorem claim7_crop_geometry (st : ImageState) (cv : Canvas) (img : FabricImage)
    (r : FabricRect)
    (hcv : st.canvas = some cv) (himg : st.activeImage = some img)
    (hr : findRect cv.objects = some r)
    (_hx : img.scaleX ≠ 0) (_hy : img.scaleY ≠ 0) :
    applyCropDraw st =
      some { left := (r.left - img.left) / img.scaleX,
             top := (r.top - img.top) / img.scaleY,
             width := r.width / img.scaleX,
             height := r.height / img.scaleY } ∧
    (applyCrop st).activeImage =
      some { left := r.left, top := r.top,
             width := r.width * r.scaleX, height := r.height * r.scaleY,
             scaleX := 1, scaleY := 1, angle := 0, filters := [] } := by
  constructor
  · simp [applyCropDraw, hcv, himg, hr, cropSource]
  · simp [applyCrop, hcv, himg, hr, croppedImage]

/-- Witness for claim C7: the spec's left-half crop of a 200 by 200 image. -/
theorem claim7_witness :
    applyCropDraw cropDemoState =
      some { left := 0, top := 0, width := 100, height := 200 } ∧
    (applyCrop cropDemoState).activeImage =
      some { left := 0, top := 0, width := 100, height := 200,
             scaleX := 1, scaleY := 1, angle := 0, filters := [] } := by
  have h := claim7_crop_geometry cropDemoState _ cropDemoImage cropDemoRect
    rfl rfl rfl (by norm_num [cropDemoImage]) (by norm_num [cropDemoImage])
  refine ⟨h.1.trans ?_, h.2.trans ?_⟩ <;> simp [cropDemoImage, cropDemoRect]

/-- A grayscale-enabled stack built by `appliedFilters` leads with
`Grayscale`. -/
theorem grayscaleLeads_appliedFilters (adj : Adjustment) :
    grayscaleLeads (appliedFilters adj true) = true := rfl

/-- Counterexample to claim C3: enabling grayscale through
`toggleGrayscale` after an `updateAdjustment` leaves the stack ending,
not starting, with `Grayscale`. -/
theorem claim3_cex_toggle_appends_last :
    (toggleGrayscale (updateAdjustment demoState AdjKey.brightness 0 0)).isGrayscale
      = true ∧
    ((toggleGrayscale (updateAdjustment demoState AdjKey.brightness 0 0)).activeImage.map
        fun i => grayscaleLeads i.filters) = some false := by
  decide

/-- Claim C3 as amended: stacks rebuilt by `updateAdjustment` do put
`Grayscale` first while the flag is on, but `toggleGrayscale` edits the
existing filter list incrementally instead of recomputing: enabling
appends `Grayscale` at the end, disabling removes every `Grayscale`. -/
theorem claim3_grayscale_order :
    (∀ (st : ImageState) (cv : Canvas) (img : FabricImage) (k : AdjKey) (v : ℚ)
        (now : Nat), st.canvas = some cv → st.activeImage = some img →
        st.isGrayscale = true →
        ((updateAdjustment st k v now).activeImage.map
            fun i => grayscaleLeads i.filters) = some true) ∧
    (∀ (st : ImageState) (cv : Canvas) (img : FabricImage),
        st.canvas = some cv → st.activeImage = some img → st.isGrayscale = false →
        (toggleGrayscale st).isGrayscale = true ∧
        (toggleGrayscale st).activeImage =
          some { img with filters := img.filters ++ [FilterOp.Grayscale] }) ∧
    (∀ (st : ImageState) (cv : Canvas) (img : FabricImage),
        st.canvas = some cv → st.activeImage = some img → st.isGrayscale = true →
        (toggleGrayscale st).isGrayscale = false ∧
        (toggleGrayscale st).activeImage =
          some { img with
                 filters := img.filters.filter fun f => f != FilterOp.Grayscale }) := by
  refine ⟨?_, ?_, ?_⟩
  · intro st cv img k v now hcv himg hg
    rw [updateAdjustment_present st cv img k v now hcv himg, hg]
    exact congrArg some (grayscaleLeads_appliedFilters _)
  · intro st cv img hcv himg hg
    constructor <;> simp [toggleGrayscale, hcv, himg, hg]
  · intro st cv img hcv himg hg
    constructor <;> simp [toggleGrayscale, hcv, himg, hg]

/-- Witness for the amended claim C3 at concrete states. -/
theorem claim3_witness :
    (((updateAdjustment grayDemoState AdjKey.noise 5 3).activeImage.map
        fun i => grayscaleLeads i.filters) = some true) ∧
    ((toggleGrayscale demoState).isGrayscale = true ∧
      (toggleGrayscale demoState).activeImage =
        some { demoImage with
               filters := demoImage.filters ++ [FilterOp.Grayscale] }) ∧
    ((toggleGrayscale grayDemoState).isGrayscale = false ∧
      (toggleGrayscale grayDemoState).activeImage =
        some { demoImage with
               filters :=
                 (appliedFilters DEFAULT_ADJUSTMENTS true).filter
                   fun f => f != FilterOp.Grayscale }) :=
  ⟨claim3_grayscale_order.1 grayDemoState demoCanvas
      { demoImage with filters := appliedFilters DEFAULT_ADJUSTMENTS true }
      AdjKey.noise 5 3 rfl rfl rfl,
   claim3_grayscale_order.2.1 demoState demoCanvas demoImage rfl rfl rfl,
   claim3_grayscale_order.2.2 grayDemoState demoCanvas
      { demoImage with filters := appliedFilters DEFAULT_ADJUSTMENTS true }
      rfl rfl rfl⟩

/-- Counterexample to claim C8: deleting the built-in preset "Vintage"
does change the registry. -/
theorem claim8_cex_builtin_deleted :
    (deletePreset initialState "Vintage").presets ≠ initialState.presets := by
  decide

/-- Claim C8 as amended: `deletePreset` enforces no built-in protection;
it removes every preset carrying the given name (built-ins included) and
keeps exactly the others. -/
theorem claim8_delete_removes (st : ImageState) (nm : String)
    (hmem : ∃ p ∈ st.presets, p.name = nm) :
    (deletePreset st nm).presets ≠ st.presets ∧
    (∀ p ∈ (deletePreset st nm).presets, p.name ≠ nm) ∧
    (∀ p ∈ st.presets, p.name ≠ nm → p ∈ (deletePreset st nm).presets) := by
  obtain ⟨q, hq, hqname⟩ := hmem
  refine ⟨?_, ?_, ?_⟩
  · intro h
    have h2 : ∀ a ∈ st.presets, (a.name != nm) = true := List.filter_eq_self.mp h
    have h3 := h2 q hq
    rw [hqname] at h3
    simp at h3
  · intro p hp
    have h4 := (List.mem_filter.mp hp).2
    simpa using h4
  · intro p hp hne
    exact List.mem_filter.mpr ⟨hp, by simpa using hne⟩

/-- Witness for the amended claim C8: deleting "Vintage" from the initial
registry. -/
theorem claim8_witness :
    (deletePreset initialState "Vintage").presets ≠ initialState.presets ∧
    (∀ p ∈ (deletePreset initialState "Vintage").presets, p.name ≠ "Vintage") ∧
    (∀ p ∈ initialState.presets, p.name ≠ "Vintage" →
        p ∈ (deletePreset initialState "Vintage").presets) :=
  claim8_delete_removes initialState "Vintage"
    ⟨{ name := "Vintage",
       adjustments := { brightness := -10, contrast := 10, saturation := -20,
                        sharpness := 0, noise := 20 } },
     by simp [initialState, DEFAULT_PRESETS], rfl⟩

/-- Counterexample to claim C9: `addPreset` appends a preset whose name
is empty after trimming instead of no-opping. -/
theorem claim9_cex_empty_name_appended :
    blankName emptyNamePreset.name = true ∧
    (addPreset initialState emptyNamePreset).presets ≠ initialState.presets := by
  constructor
  · rfl
  · decide

/-- Claim C9 as amended: `addPreset` validates nothing; it appends the
preset even when the name is empty after trimming, so the registry always
changes. -/
theorem claim9_append_unconditional (st : ImageState) (p : Preset)
    (_hname : blankName p.name = true) :
    (addPreset st p).presets = st.presets ++ [p] ∧
    (addPreset st p).presets ≠ st.presets := by
  refine ⟨rfl, fun h => ?_⟩
  have h2 := congrArg List.length h
  simp [addPreset] at h2

/-- Witness for the amended claim C9 at the empty-named preset. -/
theorem claim9_witness :
    (addPreset initialState emptyNamePreset).presets =
      initialState.presets ++ [emptyNamePreset] ∧
    (addPreset initialState emptyNamePreset).presets ≠ initialState.presets :=
  claim9_append_unconditional initialState emptyNamePreset rfl

/-- `snapEntries` yields one snapshot per call. -/
theorem snapEntries_length (adj : Adjustment) (cs : List Call) :
    (snapEntries adj cs).length = cs.length := by
  induction cs generalizing adj with
  | nil => rfl
  | cons c cs ih => simp [snapEntries, ih]

/-- Folding at least one bounded push keeps the last at most 20 of the
old ledger followed by the new entries. -/
theorem foldl_pushBounded (es : List HistoryEntry) :
    ∀ h : List HistoryEntry, es ≠ [] →
      es.foldl pushBounded h = (h ++ es).drop (h.length + es.length - 20) := by
  induction es with
  | nil => intro h hne; exact absurd rfl hne
  | cons e es ih =>
      intro h _
      cases es with
      | nil =>
          show pushBounded h e = (h ++ [e]).drop (h.length + [e].length - 20)
          have hidx : h.length + [e].length - 20 = h.length - 19 := by
            simp only [List.length_cons, List.length_nil]
            omega
          rw [pushBounded, jsSliceLast, hidx,
            List.drop_append_of_le_length
              (show h.length - 19 ≤ h.length from by omega)]
      | cons e2 es2 =>
          show (e2 :: es2).foldl pushBounded (pushBounded h e) = _
          rw [ih (pushBounded h e) (by simp)]
          have h1 : pushBounded h e = (h ++ [e]).drop (h.length - 19) := by
            rw [pushBounded, jsSliceLast,
              List.drop_append_of_le_length (by omega)]
          rw [h1, List.append_cons h e (e2 :: es2),
            ← List.drop_append_of_le_length
              (show h.length - 19 ≤ (h ++ [e]).length from by
                simp only [List.length_append, List.length_cons, List.length_nil]
                omega),
            List.drop_drop]
          congr 1
          simp only [List.length_drop, List.length_append, List.length_cons,
            List.length_nil]
          omega

/-- Running `updateAdjustment` calls with canvas and image present keeps
them present, leaves presets and the grayscale flag alone, folds the
adjustments through `setKey` and the ledger through bounded pushes of the
per-call snapshots. -/
theorem runUpdates_components (cs : List Call) :
    ∀ (st : ImageState) (cv : Canvas) (img : FabricImage),
      st.canvas = some cv → st.activeImage = some img →
      (runUpdates st cs).canvas = some cv ∧
      (∃ i2, (runUpdates st cs).activeImage = some i2) ∧
      (runUpdates st cs).adjustments = applyCalls st.adjustments cs ∧
      (runUpdates st cs).presets = st.presets ∧
      (runUpdates st cs).isGrayscale = st.isGrayscale ∧
      (runUpdates st cs).history =
        (snapEntries st.adjustments cs).foldl pushBounded st.history := by
  induction cs with
  | nil => intro st cv img hcv himg; exact ⟨hcv, ⟨img, himg⟩, rfl, rfl, rfl, rfl⟩
  | cons c cs ih =>
      intro st cv img hcv himg
      have hstep := updateAdjustment_present st cv img c.key c.value c.now hcv himg
      have h1cv : (updateAdjustment st c.key c.value c.now).canvas = some cv := by
        rw [hstep]
        exact hcv
      have h1img : (updateAdjustment st c.key c.value c.now).activeImage =
          some { img with
                 filters := appliedFilters (setKey st.adjustments c.key c.value)
                   st.isGrayscale } := by
        rw [hstep]
      obtain ⟨g1, g2, g3, g4, g5, g6⟩ :=
        ih (updateAdjustment st c.key c.value c.now) cv _ h1cv h1img
      refine ⟨g1, g2, ?_, ?_, ?_, ?_⟩
      · calc (runUpdates st (c :: cs)).adjustments
            = applyCalls (updateAdjustment st c.key c.value c.now).adjustments cs :=
              g3
          _ = applyCalls st.adjustments (c :: cs) := by rw [hstep]; rfl
      · calc (runUpdates st (c :: cs)).presets
            = (updateAdjustment st c.key c.value c.now).presets := g4
          _ = st.presets := by rw [hstep]
      · calc (runUpdates st (c :: cs)).isGrayscale
            = (updateAdjustment st c.key c.value c.now).isGrayscale := g5
          _ = st.isGrayscale := by rw [hstep]
      · calc (runUpdates st (c :: cs)).history
            = (snapEntries (updateAdjustment st c.key c.value c.now).adjustments
                cs).foldl pushBounded
                  (updateAdjustment st c.key c.value c.now).history := g6
          _ = (snapEntries st.adjustments (c :: cs)).foldl pushBounded st.history := by
              rw [hstep]
              rfl

/-- Claim C4: from any starting state with an image present, 25
sequential `updateAdjustment` calls leave a ledger of exactly 20 entries,
namely the snapshots of the 20 most recent calls in order. -/
theorem claim4_history_bound (st : ImageState) (cv : Canvas) (img : FabricImage)
    (cs : List Call)
    (hcv : st.canvas = some cv) (himg : st.activeImage = some img)
    (hlen : cs.length = 25) :
    (runUpdates st cs).history.length = 20 ∧
    (runUpdates st cs).history = (snapEntries st.adjustments cs).drop 5 := by
  obtain ⟨g1, g2, g3, g4, g5, g6⟩ := runUpdates_components cs st cv img hcv himg
  have hslen : (snapEntries st.adjustments cs).length = 25 := by
    rw [snapEntries_length, hlen]
  have hne : snapEntries st.adjustments cs ≠ [] := by
    intro h
    rw [h] at hslen
    simp at hslen
  rw [g6, foldl_pushBounded _ _ hne]
  constructor
  · rw [List.length_drop, List.length_append, hslen]
    omega
  · rw [hslen, List.drop_append_eq_append_drop,
      List.drop_eq_nil_of_le (by omega), List.nil_append]
    congr 1
    omega

/-- Witness for claim C4: the 25 concrete calls of `calls25`. -/
theorem claim4_witness :
    (runUpdates demoState calls25).history.length = 20 ∧
    (runUpdates demoState calls25).history =
      (snapEntries demoState.adjustments calls25).drop 5 :=
  claim4_history_bound demoState demoCanvas demoImage calls25 rfl rfl (by rfl)

/-- Claim C6: with an image present, `applyPreset` after `addPreset`
replays the five knobs through `updateAdjustment`, appending exactly the
five per-knob snapshots to the bounded ledger, and the stored adjustments
end equal to the preset's adjustments. -/
theorem claim6_preset_roundtrip (st : ImageState) (cv : Canvas) (img : FabricImage)
    (p : Preset) (now : Nat)
    (hcv : st.canvas = some cv) (himg : st.activeImage = some img) :
    (applyPreset (addPreset st p) p now).adjustments = p.adjustments ∧
    p ∈ (applyPreset (addPreset st p) p now).presets ∧
    (snapEntries st.adjustments (presetCalls p now)).length = 5 ∧
    (applyPreset (addPreset st p) p now).history =
      (st.history ++ snapEntries st.adjustments (presetCalls p now)).drop
        (st.history.length + 5 - 20) ∧
    (applyPreset (addPreset st p) p now).history.length =
      min (st.history.length + 5) 20 := by
  obtain ⟨nm, pb, pc, ps, psh, pn⟩ := p
  have hcv2 : (addPreset st ⟨nm, pb, pc, ps, psh, pn⟩).canvas = some cv := hcv
  have himg2 : (addPreset st ⟨nm, pb, pc, ps, psh, pn⟩).activeImage = some img := himg
  obtain ⟨g1, g2, g3, g4, g5, g6⟩ :=
    runUpdates_components (presetCalls ⟨nm, pb, pc, ps, psh, pn⟩ now)
      (addPreset st ⟨nm, pb, pc, ps, psh, pn⟩) cv img hcv2 himg2
  have hS : (snapEntries st.adjustments
      (presetCalls ⟨nm, pb, pc, ps, psh, pn⟩ now)).length = 5 := by
    rw [snapEntries_length]
    rfl
  have hne : snapEntries st.adjustments
      (presetCalls ⟨nm, pb, pc, ps, psh, pn⟩ now) ≠ [] := by
    intro h
    rw [h] at hS
    simp at hS
  have hhist : (applyPreset (addPreset st ⟨nm, pb, pc, ps, psh, pn⟩)
        ⟨nm, pb, pc, ps, psh, pn⟩ now).history =
      (st.history ++ snapEntries st.adjustments
        (presetCalls ⟨nm, pb, pc, ps, psh, pn⟩ now)).drop
          (st.history.length + 5 - 20) := by
    show (runUpdates (addPreset st ⟨nm, pb, pc, ps, psh, pn⟩)
        (presetCalls ⟨nm, pb, pc, ps, psh, pn⟩ now)).history = _
    rw [g6,
      show (addPreset st ⟨nm, pb, pc, ps, psh, pn⟩).adjustments = st.adjustments
        from rfl,
      show (addPreset st ⟨nm, pb, pc, ps, psh, pn⟩).history = st.history from rfl,
      foldl_pushBounded _ _ hne, hS]
  refine ⟨g3, ?_, hS, hhist, ?_⟩
  · show ⟨nm, pb, pc, ps, psh, pn⟩ ∈
      (runUpdates (addPreset st ⟨nm, pb, pc, ps, psh, pn⟩)
        (presetCalls ⟨nm, pb, pc, ps, psh, pn⟩ now)).presets
    rw [g4]
    simp [addPreset]
  · rw [hhist, List.length_drop, List.length_append, hS]
    omega

/-- Witness for claim C6 at the demo state and `demoPreset`. -/
theorem claim6_witness :
    (applyPreset (addPreset demoState demoPreset) demoPreset 0).adjustments =
      demoPreset.adjustments ∧
    demoPreset ∈ (applyPreset (addPreset demoState demoPreset) demoPreset 0).presets ∧
    (snapEntries demoState.adjustments (presetCalls demoPreset 0)).length = 5 ∧
    (applyPreset (addPreset demoState demoPreset) demoPreset 0).history =
      (demoState.history ++
        snapEntries demoState.adjustments (presetCalls demoPreset 0)).drop
          (demoState.history.length + 5 - 20) ∧
    (applyPreset (addPreset demoState demoPreset) demoPreset 0).history.length =
      min (demoState.history.length + 5) 20 :=
  claim6_preset_roundtrip demoState demoCanvas demoImage demoPreset 0 rfl rfl

/-- Counterexample to claim C5: with an empty ledger, `undo` is a
complete no-op, so non-default adjustments are NOT restored to defaults. -/
theorem claim5_cex_empty_ledger_noop :
    staleState.history = [] ∧
    undo staleState 7 = staleState ∧
    (undo staleState 7).adjustments ≠ DEFAULT_ADJUSTMENTS := by
  refine ⟨rfl, rfl, ?_⟩
  decide

/-- Claim C5 as amended: `undo` on an empty ledger leaves the whole state
unchanged (the guard fails); `undo` on a single-entry ledger does restore
the default adjustments. -/
theorem claim5_undo_small_ledger (st : ImageState) (cv : Canvas) (img : FabricImage)
    (e : HistoryEntry) (now : Nat)
    (hcv : st.canvas = some cv) (himg : st.activeImage = some img) :
    (st.history = [] → undo st now = st) ∧
    (st.history = [e] → (undo st now).adjustments = DEFAULT_ADJUSTMENTS) := by
  obtain ⟨c0, i0, d0, g0, s0, a0, h0, p0⟩ := st
  obtain rfl : c0 = some cv := hcv
  obtain rfl : i0 = some img := himg
  constructor
  · intro h
    obtain rfl : h0 = [] := h
    rfl
  · intro h
    obtain rfl : h0 = [e] := h
    rfl

/-- Witness for the amended claim C5 at both ledger sizes. -/
theorem claim5_witness :
    undo staleState 7 = staleState ∧
    (undo oneEntryState 7).adjustments = DEFAULT_ADJUSTMENTS :=
  ⟨(claim5_undo_small_ledger staleState demoCanvas demoImage
      { adjustments := DEFAULT_ADJUSTMENTS, imageData := none, timestamp := 0 } 7
      rfl rfl).1 rfl,
   (claim5_undo_small_ledger oneEntryState demoCanvas demoImage
      { adjustments := { brightness := 9, contrast := 0, saturation := 0,
                         sharpness := 0, noise := 0 },
        imageData := none, timestamp := 1 } 7 rfl rfl).2 rfl⟩

/-- Counterexample to claim C1: undoing `[A, B, C]` does restore `B`'s
adjustments but leaves a ledger of THREE entries, because the filter
reapply inside `undo` goes through `updateAdjustment`, which appends a
fresh snapshot of `B`'s adjustments. -/
theorem claim1_cex_history_regrows :
    (undo undoDemoState 99).adjustments = entryB.adjustments ∧
    (undo undoDemoState 99).history ≠ [entryA, entryB] ∧
    (undo undoDemoState 99).history =
      [entryA, entryB,
       { adjustments := entryB.adjustments, imageData := none, timestamp := 99 }] := by
  refine ⟨rfl, ?_, rfl⟩
  decide

/-- Claim C1 as amended: with ledger `[..., A, B, C]` and an image
present, `undo` sets the adjustments to `B`'s; the ledger drops `C` but
then gains a fresh snapshot of `B`'s adjustments appended by the
`updateAdjustment` reapply, ending as `[..., A, B] ++ [snapshot of B]`
(bounded to 20). -/
theorem claim1_undo_restores_then_reappends (st : ImageState) (cv : Canvas)
    (img : FabricImage) (hs : List HistoryEntry) (b c : HistoryEntry) (now : Nat)
    (hcv : st.canvas = some cv) (himg : st.activeImage = some img)
    (hh : st.history = hs ++ [b, c]) :
    (undo st now).adjustments = b.adjustments ∧
    (undo st now).history =
      jsSliceLast 19 (hs ++ [b]) ++
        [{ adjustments := b.adjustments, imageData := none, timestamp := now }] := by
  obtain ⟨c0, i0, d0, g0, s0, a0, h0, p0⟩ := st
  obtain rfl : c0 = some cv := hcv
  obtain rfl : i0 = some img := himg
  obtain rfl : h0 = hs ++ [b, c] := hh
  have hlen : (hs ++ [b, c]).length = hs.length + 2 := by simp
  have hpos : 0 < (hs ++ [b, c]).length := by simp
  have hidx : jsIndex (hs ++ [b, c]) (((hs ++ [b, c]).length : Int) - 2) = some b := by
    simp only [jsIndex, hlen]
    rw [if_neg (by omega)]
    have ht : (((hs.length + 2 : Nat) : Int) - 2).toNat = hs.length := by omega
    rw [ht, List.get?_append_right (le_refl hs.length)]
    simp
  have hdrop : (hs ++ [b, c]).dropLast = hs ++ [b] := by
    rw [List.append_cons hs b [c]]
    exact List.dropLast_concat
  have hupd := updateAdjustment_present
    ⟨some cv, some img, d0, g0, s0, b.adjustments, hs ++ [b], p0⟩ cv img
    AdjKey.brightness b.adjustments.brightness now rfl rfl
  constructor
  · simp only [undo, hidx, hdrop, if_pos hpos]
    rw [hupd]
    rfl
  · simp only [undo, hidx, hdrop, if_pos hpos]
    rw [hupd]
    rfl

/-- Witness for the amended claim C1 at the `[A, B, C]` sample ledger. -/
theorem claim1_witness :
    (undo undoDemoState 99).adjustments = entryB.adjustments ∧
    (undo undoDemoState 99).history =
      jsSliceLast 19 ([entryA] ++ [entryB]) ++
        [{ adjustments := entryB.adjustments, imageData := none, timestamp := 99 }] :=
  claim1_undo_restores_then_reappends undoDemoState demoCanvas demoImage
    [entryA] entryB entryC 99 rfl rfl rfl

end TimelessTouch
